import Mathlib

/-!
Verification of the DMX512 laser-projector controller
(`src/_archive/py/controller.py`, class `DmxController`).

The controller keeps a channel array `current_state` of `num_channels`
bytes.  All mutation goes through `send_dmx_packet`, which validates each
(channel, value) pair, skips invalid ones with a warning, and serializes
the array as a DMX packet `[0x00] ++ current_state`.  Each feature setter
resolves a named mode (plus optional explicit value) to a concrete
(channel, value) pair and applies it via `set_channel`.

The Python code signals failures by printing a warning and returning
without mutating the array; we model each printed warning as a typed
error value (the error taxonomy of the specification).  Channel numbers
and byte values are modelled as `Int` (Python ints are unbounded and a
caller may pass negative or oversized values).
-/

/-- The warnings the controller prints, modelled as typed errors
(specification section 7, plus the not-connected early return of
`send_dmx_packet`). -/
inductive DmxError where
  | notConnected
  | outOfRange
  | unknownMode
  | valueOutOfRange
  | missingRequiredValue
  | preconditionNotMet
  deriving DecidableEq, Repr

/-- The mutable state of a `DmxController`: whether `serial_port` is set,
the `num_channels` configuration, and the `current_state` channel array
(initialized to `[0] * num_channels`). -/
structure DmxState where
  connected : Bool
  numChannels : Nat
  current_state : List Int
  deriving DecidableEq, Repr

/-- The update loop of `send_dmx_packet`: each (channel, value) pair with
channel in [1, num_channels] and value in [0, 255] is written at index
channel - 1; an invalid pair is skipped with a warning. -/
def applyUpdates (n : Nat) (upds : List (Int × Int)) (cs : List Int) :
    List Int × Option DmxError :=
  match upds with
  | [] => (cs, none)
  | (channel, value) :: rest =>
    if 1 ≤ channel ∧ channel ≤ (n : Int) ∧ 0 ≤ value ∧ value ≤ 255 then
      applyUpdates n rest (cs.set (channel - 1).toNat value)
    else
      ((applyUpdates n rest cs).1, some DmxError.outOfRange)

/-- DmxController.send_dmx_packet: returns immediately when no serial
port is connected; otherwise applies the given channel updates to
`current_state` (invalid pairs skipped with a warning) and sends the
packet built from the updated array. -/
def send_dmx_packet (s : DmxState) (channel_values : List (Int × Int)) :
    DmxState × Option DmxError :=
  if s.connected = false then (s, some DmxError.notConnected)
  else
    let r := applyUpdates s.numChannels channel_values s.current_state
    ({ s with current_state := r.1 }, r.2)

/-- The DMX packet constructed in `send_dmx_packet`: a fixed start code
0x00 followed by the whole channel array. -/
def buildPacket (current_state : List Int) : List Int :=
  0 :: current_state

/-- DmxController.set_channel: sets a single channel by sending a packet
with a singleton update. -/
def set_channel (s : DmxState) (channel value : Int) :
    DmxState × Option DmxError :=
  send_dmx_packet s [(channel, value)]

/-- DmxController.get_channel_value: the current value of a channel, or
`none` (Python `None`) for an invalid channel number. -/
def get_channel_value (s : DmxState) (channel : Int) : Option Int :=
  if 1 ≤ channel ∧ channel ≤ (s.numChannels : Int) then
    s.current_state.get? (channel - 1).toNat
  else none

/-- DmxController.get_current_state. -/
def get_current_state (s : DmxState) : List Int :=
  s.current_state

/-- The channel-array invariant of the specification: the array length
equals `num_channels` and every element is a byte. -/
def dmxInvariant (s : DmxState) : Prop :=
  s.current_state.length = s.numChannels ∧
    ∀ x ∈ s.current_state, 0 ≤ x ∧ x ≤ 255

instance (s : DmxState) : Decidable (dmxInvariant s) := by
  unfold dmxInvariant; infer_instance

-- The feature setters.  Every range-based setter of the Python class has
-- the same body shape: look up the mode in the feature's dictionary of
-- inclusive (lo, hi) sub-ranges, default a missing explicit value to lo,
-- reject an explicit value outside the sub-range, and apply the result
-- through `set_channel`.  `setRangedMode` captures that shared body; each
-- setter supplies its own mode table and target-channel formula.

/-- The shared body of the range-based setters of DmxController: unknown
mode is rejected; a missing value defaults to the range's lower bound; an
explicit value must lie in the inclusive range. -/
def setRangedMode (modes : String → Option (Int × Int)) (channel : Int)
    (s : DmxState) (mode : String) (value : Option Int) :
    DmxState × Option DmxError :=
  match modes mode with
  | none => (s, some DmxError.unknownMode)
  | some (lo, hi) =>
    match value with
    | none => set_channel s channel lo
    | some v =>
      if lo ≤ v ∧ v ≤ hi then set_channel s channel v
      else (s, some DmxError.valueOutOfRange)

/-- An entry of the lamp-mode dictionary: the value is either a plain
number (mode "off" maps to 0) or an inclusive range. -/
inductive LampModeEntry where
  | exact (v : Int)
  | range (lo hi : Int)
  deriving DecidableEq, Repr

/-- The mode dictionary of DmxController.set_lamp_mode (channel 1). -/
def lamp_modes : String → Option LampModeEntry
  | "off" => some (.exact 0)
  | "manual" => some (.range 1 99)
  | "dynamic_sound" => some (.range 100 199)
  | "tune_program" => some (.range 200 219)
  | "sound_program" => some (.range 220 249)
  | "off_end" => some (.range 250 255)
  | _ => none

/-- DmxController.set_lamp_mode: channel 1; a range entry is collapsed to
its minimum value (the function takes no explicit value argument). -/
def set_lamp_mode (s : DmxState) (mode : String) :
    DmxState × Option DmxError :=
  match lamp_modes mode with
  | none => (s, some DmxError.unknownMode)
  | some (.exact v) => set_channel s 1 v
  | some (.range lo _) => set_channel s 1 lo

/-- The mode dictionary of DmxController.set_pattern_size. -/
def pattern_size_modes : String → Option (Int × Int)
  | "parts_blank" => some (0, 49)
  | "returns" => some (50, 99)
  | "folds" => some (100, 149)
  | "crossing" => some (150, 199)
  | "blanking" => some (200, 255)
  | _ => none

/-- DmxController.set_pattern_size: channel 2 (laser 1) or 19 (laser 2);
rejects a laser number other than 1 or 2 before touching the table. -/
def set_pattern_size (s : DmxState) (laser_num : Int) (size_mode : String)
    (value : Option Int) : DmxState × Option DmxError :=
  if laser_num = 1 ∨ laser_num = 2 then
    setRangedMode pattern_size_modes (if laser_num = 1 then 2 else 19)
      s size_mode value
  else (s, some DmxError.outOfRange)

/-- DmxController.select_gallery: channel 3, a binary selector
(0 = Beam gallery at value 0, 1 = Animation gallery at value 240). -/
def select_gallery (s : DmxState) (gallery_num : Int) :
    DmxState × Option DmxError :=
  if gallery_num = 0 then set_channel s 3 0
  else if gallery_num = 1 then set_channel s 3 240
  else (s, some DmxError.outOfRange)

/-- DmxController.select_pattern: channel 4 (laser 1) or 21 (laser 2);
the pattern index is passed straight to set_channel. -/
def select_pattern (s : DmxState) (laser_num : Int) (pattern_index : Int) :
    DmxState × Option DmxError :=
  set_channel s (if laser_num = 1 then 4 else 21) pattern_index

/-- The mode dictionary of DmxController.set_pattern_zooming. -/
def pattern_zooming_modes : String → Option (Int × Int)
  | "static" => some (0, 127)
  | "zoom_in" => some (128, 159)
  | "zoom_out" => some (160, 191)
  | "flip_zooming" => some (192, 255)
  | _ => none

/-- DmxController.set_pattern_zooming: channel 5 (laser 1) or 22. -/
def set_pattern_zooming (s : DmxState) (laser_num : Int) (zoom_mode : String)
    (value : Option Int) : DmxState × Option DmxError :=
  setRangedMode pattern_zooming_modes (if laser_num = 1 then 5 else 22)
    s zoom_mode value

/-- The mode dictionary of DmxController.set_pattern_rotation. -/
def pattern_rotation_modes : String → Option (Int × Int)
  | "static" => some (0, 127)
  | "dynamic_inversion" => some (128, 255)
  | _ => none

/-- DmxController.set_pattern_rotation: channel 6 (laser 1) or 23. -/
def set_pattern_rotation (s : DmxState) (laser_num : Int)
    (rotation_mode : String) (value : Option Int) :
    DmxState × Option DmxError :=
  setRangedMode pattern_rotation_modes (if laser_num = 1 then 6 else 23)
    s rotation_mode value

/-- The mode dictionary of DmxController.set_horizontal_movement. -/
def horizontal_movement_modes : String → Option (Int × Int)
  | "static" => some (0, 127)
  | "push_up" => some (128, 159)
  | "push_down" => some (160, 191)
  | "left_shift" => some (192, 223)
  | "right_shift" => some (224, 255)
  | _ => none

/-- DmxController.set_horizontal_movement: channel 7 (laser 1) or 24. -/
def set_horizontal_movement (s : DmxState) (laser_num : Int)
    (movement_mode : String) (value : Option Int) :
    DmxState × Option DmxError :=
  setRangedMode horizontal_movement_modes (if laser_num = 1 then 7 else 24)
    s movement_mode value

/-- The mode dictionary of DmxController.set_vertical_movement. -/
def vertical_movement_modes : String → Option (Int × Int)
  | "static" => some (0, 127)
  | "right_push" => some (128, 159)
  | "left_push" => some (160, 191)
  | "move_up" => some (192, 223)
  | "move_down" => some (224, 255)
  | _ => none

/-- DmxController.set_vertical_movement: channel 8 (laser 1) or 25. -/
def set_vertical_movement (s : DmxState) (laser_num : Int)
    (movement_mode : String) (value : Option Int) :
    DmxState × Option DmxError :=
  setRangedMode vertical_movement_modes (if laser_num = 1 then 8 else 25)
    s movement_mode value

/-- The mode dictionary of DmxController.set_horizontal_zooming. -/
def horizontal_zooming_modes : String → Option (Int × Int)
  | "static" => some (0, 127)
  | "push_up_distortion" => some (128, 159)
  | "push_down_distortion" => some (160, 191)
  | "zooming" => some (192, 223)
  | "flip_zooming" => some (224, 255)
  | _ => none

/-- DmxController.set_horizontal_zooming: global channel 9. -/
def set_horizontal_zooming (s : DmxState) (zoom_mode : String)
    (value : Option Int) : DmxState × Option DmxError :=
  setRangedMode horizontal_zooming_modes 9 s zoom_mode value

/-- The mode dictionary of DmxController.set_vertical_zooming. -/
def vertical_zooming_modes : String → Option (Int × Int)
  | "static" => some (0, 127)
  | "right_push_distortion" => some (128, 159)
  | "left_push_distortion" => some (160, 191)
  | "zoom" => some (192, 223)
  | "dynamic_flip_zooming" => some (224, 255)
  | _ => none

/-- DmxController.set_vertical_zooming: global channel 10. -/
def set_vertical_zooming (s : DmxState) (zoom_mode : String)
    (value : Option Int) : DmxState × Option DmxError :=
  setRangedMode vertical_zooming_modes 10 s zoom_mode value

/-- DmxController.set_forced_color: channel 11 (laser 1) or 28; mode
"primary" writes 0, mode "change_every_n" demands an explicit N in
[1, 255]. -/
def set_forced_color (s : DmxState) (laser_num : Int) (mode : String)
    (value : Option Int) : DmxState × Option DmxError :=
  if mode = "primary" then
    set_channel s (if laser_num = 1 then 11 else 28) 0
  else if mode = "change_every_n" then
    match value with
    | none => (s, some DmxError.missingRequiredValue)
    | some v =>
      if 1 ≤ v ∧ v ≤ 255 then
        set_channel s (if laser_num = 1 then 11 else 28) v
      else (s, some DmxError.valueOutOfRange)
  else (s, some DmxError.unknownMode)

/-- The mode dictionary of DmxController.set_strobe_flash. -/
def strobe_flash_modes : String → Option (Int × Int)
  | "off" => some (0, 15)
  | "strobe" => some (16, 131)
  | "random_flash" => some (132, 147)
  | "sound_strobe" => some (148, 199)
  | "sound_random_flash" => some (200, 215)
  | "on" => some (216, 255)
  | _ => none

/-- DmxController.set_strobe_flash: global channel 12. -/
def set_strobe_flash (s : DmxState) (mode : String) (value : Option Int) :
    DmxState × Option DmxError :=
  setRangedMode strobe_flash_modes 12 s mode value

/-- The mode dictionary of DmxController.set_node_highlighting.  The
third sub-range is 128 to 223 as implemented (the protocol CSV lists
128 to 159, flagged in the source as a likely typo). -/
def node_highlighting_modes : String → Option (Int × Int)
  | "brighter" => some (0, 63)
  | "broken_lines" => some (64, 127)
  | "scanning_line" => some (128, 223)
  | _ => none

/-- DmxController.set_node_highlighting: channel 13 (laser 1) or 30. -/
def set_node_highlighting (s : DmxState) (laser_num : Int) (mode : String)
    (value : Option Int) : DmxState × Option DmxError :=
  setRangedMode node_highlighting_modes (if laser_num = 1 then 13 else 30)
    s mode value

/-- DmxController.set_node_expansion: channel 14 (laser 1) or 31.  When
the companion gradual-drawing channel (15, or 32) holds a value of at
least 128, a delay value in [0, 255] is required and is what gets
written; otherwise the expansion value is written directly.  (The `none`
branch of the companion read corresponds to a Python TypeError comparing
None with 128; it is unreachable when the companion channel exists.) -/
def set_node_expansion (s : DmxState) (laser_num : Int)
    (expansion_value : Int) (delay_value : Option Int) :
    DmxState × Option DmxError :=
  if ¬ (0 ≤ expansion_value ∧ expansion_value ≤ 255) then
    (s, some DmxError.outOfRange)
  else
    match get_channel_value s (if laser_num = 1 then 15 else 32) with
    | none => (s, some DmxError.outOfRange)
    | some companion =>
      if 128 ≤ companion then
        match delay_value with
        | none => (s, some DmxError.missingRequiredValue)
        | some d =>
          if ¬ (0 ≤ d ∧ d ≤ 255) then (s, some DmxError.outOfRange)
          else set_channel s (if laser_num = 1 then 14 else 31) d
      else set_channel s (if laser_num = 1 then 14 else 31) expansion_value

/-- The mode dictionary of DmxController.set_gradual_drawing. -/
def gradual_drawing_modes : String → Option (Int × Int)
  | "forward_manual" => some (0, 63)
  | "reverse_manual" => some (64, 127)
  | "dynamic_A" => some (128, 159)
  | "dynamic_B" => some (160, 191)
  | "dynamic_C" => some (192, 223)
  | "dynamic_D" => some (224, 255)
  | _ => none

/-- DmxController.set_gradual_drawing: channel 15 (laser 1) or 32.  The
two manual modes demand a manual value below their ceiling (127 for
forward, 63 for reverse) and require the companion node-expansion
channel (14, or 31) to be non-zero; the dynamic modes write the range's
lower bound. -/
def set_gradual_drawing (s : DmxState) (laser_num : Int) (mode : String)
    (manual_expansion_value : Option Int) : DmxState × Option DmxError :=
  match gradual_drawing_modes mode with
  | none => (s, some DmxError.unknownMode)
  | some (lo, _) =>
    if mode = "forward_manual" ∨ mode = "reverse_manual" then
      match manual_expansion_value with
      | none => (s, some DmxError.missingRequiredValue)
      | some m =>
        if ¬ (0 ≤ m ∧ m ≤ (if mode = "forward_manual" then 127 else 63)) then
          (s, some DmxError.valueOutOfRange)
        else if laser_num = 1 ∧ get_channel_value s 14 = some 0 then
          (s, some DmxError.preconditionNotMet)
        else if laser_num = 2 ∧ get_channel_value s 31 = some 0 then
          (s, some DmxError.preconditionNotMet)
        else set_channel s (if laser_num = 1 then 15 else 32) m
    else set_channel s (if laser_num = 1 then 15 else 32) lo

/-- DmxController.set_distortion_degree: channel 16 (picture 1) or 17. -/
def set_distortion_degree (s : DmxState) (laser_num : Int) (degree : Int) :
    DmxState × Option DmxError :=
  if ¬ (0 ≤ degree ∧ degree ≤ 255) then (s, some DmxError.outOfRange)
  else set_channel s (if laser_num = 1 then 16 else 17) degree

/-- DmxController.set_second_lamp_pattern: channel 18. -/
def set_second_lamp_pattern (s : DmxState) (pattern_value : Int) :
    DmxState × Option DmxError :=
  if ¬ (0 ≤ pattern_value ∧ pattern_value ≤ 255) then
    (s, some DmxError.outOfRange)
  else set_channel s 18 pattern_value

/-- DmxController.set_pattern_library_selection: channel 20, only mode
"default" (value 0) is supported. -/
def set_pattern_library_selection (s : DmxState) (mode : String) :
    DmxState × Option DmxError :=
  if mode = "default" then set_channel s 20 0
  else (s, some DmxError.unknownMode)

/-- The mode dictionary of DmxController.set_horizontal_flip. -/
def horizontal_flip_modes : String → Option (Int × Int)
  | "static" => some (0, 127)
  | "push_up_distortion" => some (128, 159)
  | "push_down_distortion" => some (160, 191)
  | "flip" => some (192, 223)
  | _ => none

/-- DmxController.set_horizontal_flip: global channel 26. -/
def set_horizontal_flip (s : DmxState) (mode : String) (value : Option Int) :
    DmxState × Option DmxError :=
  setRangedMode horizontal_flip_modes 26 s mode value

/-- The mode dictionary of DmxController.set_vertical_flip. -/
def vertical_flip_modes : String → Option (Int × Int)
  | "static" => some (0, 127)
  | "right_push_distortion" => some (128, 159)
  | "left_push_distortion" => some (160, 191)
  | "flip" => some (192, 255)
  | _ => none

/-- DmxController.set_vertical_flip: global channel 27. -/
def set_vertical_flip (s : DmxState) (mode : String) (value : Option Int) :
    DmxState × Option DmxError :=
  setRangedMode vertical_flip_modes 27 s mode value

/-- The mode dictionary of DmxController.set_color_change. -/
def color_change_modes : String → Option (Int × Int)
  | "primary" => some (0, 7)
  | "white" => some (8, 15)
  | "red" => some (16, 23)
  | "yellow" => some (24, 31)
  | "green" => some (32, 39)
  | "indigo" => some (40, 47)
  | "blue" => some (48, 55)
  | "purple" => some (56, 63)
  | "rgb_cycle" => some (64, 95)
  | "yip_cycle" => some (96, 127)
  | "full_color_cycle" => some (128, 159)
  | "colorful_change" => some (160, 191)
  | "forward_movement" => some (192, 223)
  | "reverse_movement" => some (224, 255)
  | _ => none

/-- DmxController.set_color_change: global channel 29. -/
def set_color_change (s : DmxState) (mode : String) (value : Option Int) :
    DmxState × Option DmxError :=
  setRangedMode color_change_modes 29 s mode value

/-- DmxController.blackout: sets the lamp mode to "off". -/
def blackout (s : DmxState) : DmxState × Option DmxError :=
  set_lamp_mode s "off"

/-- DmxController.reset_all_channels: sends a packet updating every
channel 1 to num_channels to 0. -/
def reset_all_channels (s : DmxState) : DmxState × Option DmxError :=
  send_dmx_packet s ((List.range s.numChannels).map fun i => ((i : Int) + 1, 0))

/-- An operation routes through the packet sender: on every state it
either leaves the state untouched (a rejected call) or its result is a
send_dmx_packet call on that state. -/
def routesThroughPacket (f : DmxState → DmxState × Option DmxError) : Prop :=
  ∀ s : DmxState, (f s).1 = s ∨ ∃ upds, f s = send_dmx_packet s upds

/-- An operation preserves the channel-array invariant and never resizes
the array (num_channels is untouched). -/
def preservesDmxInvariant (f : DmxState → DmxState × Option DmxError) : Prop :=
  ∀ s : DmxState, (f s).1.numChannels = s.numChannels ∧
    (dmxInvariant s → dmxInvariant (f s).1)

/-- An operation leaves a disconnected controller completely unchanged. -/
def untouchedWhenDisconnected (f : DmxState → DmxState × Option DmxError) : Prop :=
  ∀ s : DmxState, s.connected = false → (f s).1 = s

/-- A fresh connected controller with the default 32 channels, as built
by the constructor after a successful connect. -/
def freshController : DmxState :=
  ⟨true, 32, List.replicate 32 0⟩

/-- A controller whose serial connection failed: serial_port is None and
the array is still all zero. -/
def offlineController : DmxState :=
  ⟨false, 32, List.replicate 32 0⟩

/-- A connected controller whose gradual-drawing channel 15 (index 14)
holds 200. -/
def drawingHighController : DmxState :=
  ⟨true, 32, (List.replicate 32 0).set 14 200⟩

/-- A connected controller whose node-expansion channel 14 (index 13)
holds 50. -/
def expansionSetController : DmxState :=
  ⟨true, 32, (List.replicate 32 0).set 13 50⟩

-- Basic facts about the update loop and the packet sender.

lemma applyUpdates_length (n : Nat) (upds : List (Int × Int)) (cs : List Int) :
    (applyUpdates n upds cs).1.length = cs.length := by
  induction upds generalizing cs with
  | nil => rfl
  | cons u rest ih =>
    obtain ⟨channel, value⟩ := u
    unfold applyUpdates
    split
    · rw [ih, List.length_set]
    · exact ih cs

lemma applyUpdates_mem (n : Nat) (upds : List (Int × Int)) (cs : List Int)
    (hcs : ∀ x ∈ cs, 0 ≤ x ∧ x ≤ 255) :
    ∀ x ∈ (applyUpdates n upds cs).1, 0 ≤ x ∧ x ≤ 255 := by
  induction upds generalizing cs with
  | nil => exact hcs
  | cons u rest ih =>
    obtain ⟨channel, value⟩ := u
    unfold applyUpdates
    split
    · rename_i hv
      refine ih _ ?_
      intro x hx
      rcases List.mem_or_eq_of_mem_set hx with h | h
      · exact hcs x h
      · subst h; exact ⟨hv.2.2.1, hv.2.2.2⟩
    · exact ih cs hcs

lemma send_dmx_packet_numChannels (s : DmxState) (upds : List (Int × Int)) :
    (send_dmx_packet s upds).1.numChannels = s.numChannels := by
  unfold send_dmx_packet
  split <;> rfl

lemma send_dmx_packet_invariant (s : DmxState) (upds : List (Int × Int))
    (h : dmxInvariant s) : dmxInvariant (send_dmx_packet s upds).1 := by
  unfold send_dmx_packet
  split
  · exact h
  · exact ⟨by simpa [applyUpdates_length] using h.1,
      applyUpdates_mem _ _ _ h.2⟩

lemma send_dmx_packet_disconnected (s : DmxState) (upds : List (Int × Int))
    (h : s.connected = false) :
    send_dmx_packet s upds = (s, some DmxError.notConnected) := by
  unfold send_dmx_packet
  simp [h]

-- Every setter routes through the packet sender.

lemma routes_preserves {f : DmxState → DmxState × Option DmxError}
    (hf : routesThroughPacket f) : preservesDmxInvariant f := by
  intro s
  rcases hf s with h | ⟨upds, h⟩
  · rw [h]; exact ⟨rfl, fun hi => hi⟩
  · rw [h]
    exact ⟨send_dmx_packet_numChannels s upds, send_dmx_packet_invariant s upds⟩

lemma routes_untouched {f : DmxState → DmxState × Option DmxError}
    (hf : routesThroughPacket f) : untouchedWhenDisconnected f := by
  intro s hs
  rcases hf s with h | ⟨upds, h⟩
  · exact h
  · rw [h, send_dmx_packet_disconnected s upds hs]

lemma set_channel_routes (c v : Int) :
    routesThroughPacket (fun s => set_channel s c v) := by
  intro s
  exact Or.inr ⟨[(c, v)], rfl⟩

lemma setRangedMode_routes (modes : String → Option (Int × Int))
    (channel : Int) (mode : String) (value : Option Int) :
    routesThroughPacket (fun s => setRangedMode modes channel s mode value) := by
  intro s
  unfold setRangedMode
  rcases modes mode with _ | ⟨lo, hi⟩
  · exact Or.inl rfl
  · rcases value with _ | v
    · exact Or.inr ⟨_, rfl⟩
    · dsimp only
      split
      · exact Or.inr ⟨_, rfl⟩
      · exact Or.inl rfl

lemma set_lamp_mode_routes (mode : String) :
    routesThroughPacket (fun s => set_lamp_mode s mode) := by
  intro s
  unfold set_lamp_mode
  rcases lamp_modes mode with _ | (v | ⟨lo, hi⟩)
  · exact Or.inl rfl
  · exact Or.inr ⟨_, rfl⟩
  · exact Or.inr ⟨_, rfl⟩

lemma set_pattern_size_routes (l : Int) (m : String) (v : Option Int) :
    routesThroughPacket (fun s => set_pattern_size s l m v) := by
  intro s
  unfold set_pattern_size
  split
  · exact setRangedMode_routes _ _ _ _ s
  · exact Or.inl rfl

lemma select_gallery_routes (g : Int) :
    routesThroughPacket (fun s => select_gallery s g) := by
  intro s
  unfold select_gallery
  split
  · exact Or.inr ⟨_, rfl⟩
  · split
    · exact Or.inr ⟨_, rfl⟩
    · exact Or.inl rfl

lemma set_forced_color_routes (l : Int) (m : String) (v : Option Int) :
    routesThroughPacket (fun s => set_forced_color s l m v) := by
  intro s
  unfold set_forced_color
  split
  · exact Or.inr ⟨_, rfl⟩
  · split
    · rcases v with _ | n
      · exact Or.inl rfl
      · dsimp only
        split
        · exact Or.inr ⟨_, rfl⟩
        · exact Or.inl rfl
    · exact Or.inl rfl

lemma set_node_expansion_routes (l ev : Int) (d : Option Int) :
    routesThroughPacket (fun s => set_node_expansion s l ev d) := by
  intro s
  unfold set_node_expansion
  dsimp only
  repeat' split
  all_goals first
    | exact Or.inl rfl
    | exact Or.inr ⟨_, rfl⟩

lemma set_gradual_drawing_routes (l : Int) (m : String) (v : Option Int) :
    routesThroughPacket (fun s => set_gradual_drawing s l m v) := by
  intro s
  unfold set_gradual_drawing
  dsimp only
  repeat' split
  all_goals first
    | exact Or.inl rfl
    | exact Or.inr ⟨_, rfl⟩

lemma set_distortion_degree_routes (l d : Int) :
    routesThroughPacket (fun s => set_distortion_degree s l d) := by
  intro s
  unfold set_distortion_degree
  split
  · exact Or.inl rfl
  · exact Or.inr ⟨_, rfl⟩

lemma set_second_lamp_pattern_routes (p : Int) :
    routesThroughPacket (fun s => set_second_lamp_pattern s p) := by
  intro s
  unfold set_second_lamp_pattern
  split
  · exact Or.inl rfl
  · exact Or.inr ⟨_, rfl⟩

lemma set_pattern_library_selection_routes (m : String) :
    routesThroughPacket (fun s => set_pattern_library_selection s m) := by
  intro s
  unfold set_pattern_library_selection
  split
  · exact Or.inr ⟨_, rfl⟩
  · exact Or.inl rfl

lemma select_pattern_routes (l p : Int) :
    routesThroughPacket (fun s => select_pattern s l p) := by
  intro s
  exact Or.inr ⟨_, rfl⟩

lemma reset_all_channels_routes : routesThroughPacket reset_all_channels := by
  intro s
  exact Or.inr ⟨_, rfl⟩

lemma set_channel_then_get (s : DmxState) (i v : Int)
    (hconn : s.connected = true)
    (hlen : s.current_state.length = s.numChannels)
    (hi : 1 ≤ i ∧ i ≤ (s.numChannels : Int))
    (hv : 0 ≤ v ∧ v ≤ 255) :
    get_channel_value (set_channel s i v).1 i = some v := by
  have hidx : (i - 1).toNat < s.numChannels := by
    omega
  unfold set_channel send_dmx_packet
  rw [hconn]
  simp only [Bool.true_eq_false, if_false]
  unfold applyUpdates applyUpdates
  rw [if_pos ⟨hi.1, hi.2, hv.1, hv.2⟩]
  unfold get_channel_value
  simp only
  rw [if_pos hi]
  have hilen : (i - 1).toNat < s.current_state.length := by rw [hlen]; exact hidx
  rw [List.get?_eq_getElem?, List.getElem?_set_eq_of_lt v hilen]

lemma set_channel_rejected (s : DmxState) (c v : Int)
    (hconn : s.connected = true)
    (hbad : ¬ (1 ≤ c ∧ c ≤ (s.numChannels : Int) ∧ 0 ≤ v ∧ v ≤ 255)) :
    set_channel s c v = (s, some DmxError.outOfRange) := by
  unfold set_channel send_dmx_packet
  rw [hconn]
  simp only [Bool.true_eq_false, if_false]
  unfold applyUpdates applyUpdates
  rw [if_neg hbad, ← hconn]

lemma setRangedMode_unknown (modes : String → Option (Int × Int))
    (channel : Int) (s : DmxState) (mode : String) (value : Option Int)
    (h : modes mode = none) :
    setRangedMode modes channel s mode value = (s, some DmxError.unknownMode) := by
  unfold setRangedMode
  rw [h]

lemma setRangedMode_default (modes : String → Option (Int × Int))
    (channel : Int) (s : DmxState) (mode : String) (lo hi : Int)
    (h : modes mode = some (lo, hi)) :
    setRangedMode modes channel s mode none = set_channel s channel lo := by
  unfold setRangedMode
  rw [h]

lemma setRangedMode_explicit (modes : String → Option (Int × Int))
    (channel : Int) (s : DmxState) (mode : String) (lo hi v : Int)
    (h : modes mode = some (lo, hi)) :
    (lo ≤ v ∧ v ≤ hi →
      setRangedMode modes channel s mode (some v) = set_channel s channel v) ∧
    (¬ (lo ≤ v ∧ v ≤ hi) →
      setRangedMode modes channel s mode (some v)
        = (s, some DmxError.valueOutOfRange)) := by
  unfold setRangedMode
  rw [h]
  dsimp only
  constructor
  · intro hv
    rw [if_pos hv]
  · intro hv
    rw [if_neg hv]

/-- Claim C1 theorem.  For every channel i in [1, N] and value v in
[0, 255], on a connected controller whose array has its configured
length, `set_channel i v` followed by `get_channel_value i` returns v. -/
theorem set_channel_get_channel_roundtrip (s : DmxState) (i v : Int)
    (hconn : s.connected = true)
    (hlen : s.current_state.length = s.numChannels)
    (hi : 1 ≤ i ∧ i ≤ (s.numChannels : Int))
    (hv : 0 ≤ v ∧ v ≤ 255) :
    get_channel_value (set_channel s i v).1 i = some v :=
  set_channel_then_get s i v hconn hlen hi hv

/-- Claim C1 witness: on a fresh connected 32-channel controller, setting
channel 7 to 200 and reading channel 7 back yields 200. -/
theorem set_channel_get_channel_roundtrip_witness :
    get_channel_value (set_channel freshController 7 200).1 7 = some 200 :=
  set_channel_get_channel_roundtrip freshController 7 200
    rfl (by decide) (by decide) (by decide)

/-- Claim C4 theorem.  On a connected controller, `set_channel` with a
channel outside [1, N] or a value outside [0, 255] fails with the
out-of-range warning and returns the state (hence the channel array)
unchanged. -/
theorem set_channel_invalid_out_of_range (s : DmxState) (c v : Int)
    (hconn : s.connected = true)
    (hbad : ¬ (1 ≤ c ∧ c ≤ (s.numChannels : Int)) ∨ ¬ (0 ≤ v ∧ v ≤ 255)) :
    set_channel s c v = (s, some DmxError.outOfRange) :=
  set_channel_rejected s c v hconn (by tauto)

/-- Claim C4 witness: setting channel 0 (and channel 5 to value 300) on a
fresh connected controller fails with OutOfRange and leaves the state
unchanged. -/
theorem set_channel_invalid_out_of_range_witness :
    set_channel freshController 0 10 = (freshController, some DmxError.outOfRange) ∧
      set_channel freshController 5 300 = (freshController, some DmxError.outOfRange) :=
  ⟨set_channel_invalid_out_of_range freshController 0 10 rfl (by decide),
   set_channel_invalid_out_of_range freshController 5 300 rfl (by decide)⟩

/-- Claim C7 theorem.  For every channel array of length N, the packet
built in `send_dmx_packet` is the byte 0x00 followed by the N channel
bytes in order: length N + 1, first byte 0, remaining bytes the array
itself (no checksum, no escaping). -/
theorem build_packet_framing (cs : List Int) (n : Nat) (h : cs.length = n) :
    buildPacket cs = 0 :: cs ∧ (buildPacket cs).length = n + 1 ∧
      (buildPacket cs).head? = some 0 ∧ (buildPacket cs).tail = cs :=
  ⟨rfl, by simp [buildPacket, h], rfl, rfl⟩

/-- Claim C7 witness: on the all-zero 32-channel array the packet is the
33-byte all-zero sequence. -/
theorem build_packet_framing_witness :
    (buildPacket (List.replicate 32 0)).length = 33 ∧
      buildPacket (List.replicate 32 0) = List.replicate 33 0 :=
  ⟨(build_packet_framing (List.replicate 32 0) 32 (by decide)).2.1,
   by decide⟩

/-- Claim C5 theorem.  Every range-based setter called without an
explicit value resolves to the lower bound of the selected mode's
sub-range (the setters with a mandatory value argument, the manual
gradual-drawing modes and forced color, are the documented exceptions);
in particular, lamp mode "dynamic_sound" resolves to channel 1,
value 100. -/
theorem range_modes_default_to_lower_bound :
    (∀ (s : DmxState) (mode : String) (lo hi : Int),
      lamp_modes mode = some (.range lo hi) →
      set_lamp_mode s mode = set_channel s 1 lo) ∧
    (∀ (s : DmxState) (laser : Int) (mode : String) (lo hi : Int),
      laser = 1 ∨ laser = 2 → pattern_size_modes mode = some (lo, hi) →
      set_pattern_size s laser mode none
        = set_channel s (if laser = 1 then 2 else 19) lo) ∧
    (∀ (s : DmxState) (laser : Int) (mode : String) (lo hi : Int),
      pattern_zooming_modes mode = some (lo, hi) →
      set_pattern_zooming s laser mode none
        = set_channel s (if laser = 1 then 5 else 22) lo) ∧
    (∀ (s : DmxState) (laser : Int) (mode : String) (lo hi : Int),
      pattern_rotation_modes mode = some (lo, hi) →
      set_pattern_rotation s laser mode none
        = set_channel s (if laser = 1 then 6 else 23) lo) ∧
    (∀ (s : DmxState) (laser : Int) (mode : String) (lo hi : Int),
      horizontal_movement_modes mode = some (lo, hi) →
      set_horizontal_movement s laser mode none
        = set_channel s (if laser = 1 then 7 else 24) lo) ∧
    (∀ (s : DmxState) (laser : Int) (mode : String) (lo hi : Int),
      vertical_movement_modes mode = some (lo, hi) →
      set_vertical_movement s laser mode none
        = set_channel s (if laser = 1 then 8 else 25) lo) ∧
    (∀ (s : DmxState) (mode : String) (lo hi : Int),
      horizontal_zooming_modes mode = some (lo, hi) →
      set_horizontal_zooming s mode none = set_channel s 9 lo) ∧
    (∀ (s : DmxState) (mode : String) (lo hi : Int),
      vertical_zooming_modes mode = some (lo, hi) →
      set_vertical_zooming s mode none = set_channel s 10 lo) ∧
    (∀ (s : DmxState) (mode : String) (lo hi : Int),
      strobe_flash_modes mode = some (lo, hi) →
      set_strobe_flash s mode none = set_channel s 12 lo) ∧
    (∀ (s : DmxState) (laser : Int) (mode : String) (lo hi : Int),
      node_highlighting_modes mode = some (lo, hi) →
      set_node_highlighting s laser mode none
        = set_channel s (if laser = 1 then 13 else 30) lo) ∧
    (∀ (s : DmxState) (laser : Int) (mode : String) (lo hi : Int),
      gradual_drawing_modes mode = some (lo, hi) →
      mode ≠ "forward_manual" → mode ≠ "reverse_manual" →
      set_gradual_drawing s laser mode none
        = set_channel s (if laser = 1 then 15 else 32) lo) ∧
    (∀ (s : DmxState) (mode : String) (lo hi : Int),
      horizontal_flip_modes mode = some (lo, hi) →
      set_horizontal_flip s mode none = set_channel s 26 lo) ∧
    (∀ (s : DmxState) (mode : String) (lo hi : Int),
      vertical_flip_modes mode = some (lo, hi) →
      set_vertical_flip s mode none = set_channel s 27 lo) ∧
    (∀ (s : DmxState) (mode : String) (lo hi : Int),
      color_change_modes mode = some (lo, hi) →
      set_color_change s mode none = set_channel s 29 lo) ∧
    (∀ s : DmxState, set_lamp_mode s "dynamic_sound" = set_channel s 1 100) := by
  refine ⟨?_, ?_, ?_, ?_, ?_, ?_, ?_, ?_, ?_, ?_, ?_, ?_, ?_, ?_, ?_⟩
  · intro s mode lo hi h
    unfold set_lamp_mode
    rw [h]
  · intro s laser mode lo hi hlaser h
    unfold set_pattern_size
    rw [if_pos hlaser]
    exact setRangedMode_default _ _ _ _ _ _ h
  · intro s laser mode lo hi h
    exact setRangedMode_default _ _ _ _ _ _ h
  · intro s laser mode lo hi h
    exact setRangedMode_default _ _ _ _ _ _ h
  · intro s laser mode lo hi h
    exact setRangedMode_default _ _ _ _ _ _ h
  · intro s laser mode lo hi h
    exact setRangedMode_default _ _ _ _ _ _ h
  · intro s mode lo hi h
    exact setRangedMode_default _ _ _ _ _ _ h
  · intro s mode lo hi h
    exact setRangedMode_default _ _ _ _ _ _ h
  · intro s mode lo hi h
    exact setRangedMode_default _ _ _ _ _ _ h
  · intro s laser mode lo hi h
    exact setRangedMode_default _ _ _ _ _ _ h
  · intro s laser mode lo hi h hf hr
    unfold set_gradual_drawing
    rw [h]
    dsimp only
    rw [if_neg (by simp [hf, hr])]
  · intro s mode lo hi h
    exact setRangedMode_default _ _ _ _ _ _ h
  · intro s mode lo hi h
    exact setRangedMode_default _ _ _ _ _ _ h
  · intro s mode lo hi h
    exact setRangedMode_default _ _ _ _ _ _ h
  · intro s
    simp [set_lamp_mode, lamp_modes]

/-- Claim C5 witness: lamp mode "dynamic_sound" on a fresh connected
controller resolves to channel 1, value 100 (lower bound of the
[100, 199] range). -/
theorem range_modes_default_to_lower_bound_witness :
    set_lamp_mode freshController "dynamic_sound"
      = set_channel freshController 1 100 :=
  range_modes_default_to_lower_bound.1 freshController "dynamic_sound" 100 199 rfl

/-- Claim C6 theorem.  For every range-based setter, a supplied explicit
value is accepted and resolved as-is exactly when it lies in the selected
mode's inclusive sub-range, and otherwise the call fails with the value
out-of-range warning leaving the state unchanged; in particular, pattern
zoom for laser 2, mode "zoom_in", value 145 resolves to channel 22,
value 145, while value 300 fails. -/
theorem range_modes_explicit_value :
    (∀ (s : DmxState) (laser : Int) (mode : String) (lo hi v : Int),
      laser = 1 ∨ laser = 2 → pattern_size_modes mode = some (lo, hi) →
      (lo ≤ v ∧ v ≤ hi →
        set_pattern_size s laser mode (some v)
          = set_channel s (if laser = 1 then 2 else 19) v) ∧
      (¬ (lo ≤ v ∧ v ≤ hi) →
        set_pattern_size s laser mode (some v)
          = (s, some DmxError.valueOutOfRange))) ∧
    (∀ (s : DmxState) (laser : Int) (mode : String) (lo hi v : Int),
      pattern_zooming_modes mode = some (lo, hi) →
      (lo ≤ v ∧ v ≤ hi →
        set_pattern_zooming s laser mode (some v)
          = set_channel s (if laser = 1 then 5 else 22) v) ∧
      (¬ (lo ≤ v ∧ v ≤ hi) →
        set_pattern_zooming s laser mode (some v)
          = (s, some DmxError.valueOutOfRange))) ∧
    (∀ (s : DmxState) (laser : Int) (mode : String) (lo hi v : Int),
      pattern_rotation_modes mode = some (lo, hi) →
      (lo ≤ v ∧ v ≤ hi →
        set_pattern_rotation s laser mode (some v)
          = set_channel s (if laser = 1 then 6 else 23) v) ∧
      (¬ (lo ≤ v ∧ v ≤ hi) →
        set_pattern_rotation s laser mode (some v)
          = (s, some DmxError.valueOutOfRange))) ∧
    (∀ (s : DmxState) (laser : Int) (mode : String) (lo hi v : Int),
      horizontal_movement_modes mode = some (lo, hi) →
      (lo ≤ v ∧ v ≤ hi →
        set_horizontal_movement s laser mode (some v)
          = set_channel s (if laser = 1 then 7 else 24) v) ∧
      (¬ (lo ≤ v ∧ v ≤ hi) →
        set_horizontal_movement s laser mode (some v)
          = (s, some DmxError.valueOutOfRange))) ∧
    (∀ (s : DmxState) (laser : Int) (mode : String) (lo hi v : Int),
      vertical_movement_modes mode = some (lo, hi) →
      (lo ≤ v ∧ v ≤ hi →
        set_vertical_movement s laser mode (some v)
          = set_channel s (if laser = 1 then 8 else 25) v) ∧
      (¬ (lo ≤ v ∧ v ≤ hi) →
        set_vertical_movement s laser mode (some v)
          = (s, some DmxError.valueOutOfRange))) ∧
    (∀ (s : DmxState) (mode : String) (lo hi v : Int),
      horizontal_zooming_modes mode = some (lo, hi) →
      (lo ≤ v ∧ v ≤ hi →
        set_horizontal_zooming s mode (some v) = set_channel s 9 v) ∧
      (¬ (lo ≤ v ∧ v ≤ hi) →
        set_horizontal_zooming s mode (some v)
          = (s, some DmxError.valueOutOfRange))) ∧
    (∀ (s : DmxState) (mode : String) (lo hi v : Int),
      vertical_zooming_modes mode = some (lo, hi) →
      (lo ≤ v ∧ v ≤ hi →
        set_vertical_zooming s mode (some v) = set_channel s 10 v) ∧
      (¬ (lo ≤ v ∧ v ≤ hi) →
        set_vertical_zooming s mode (some v)
          = (s, some DmxError.valueOutOfRange))) ∧
    (∀ (s : DmxState) (mode : String) (lo hi v : Int),
      strobe_flash_modes mode = some (lo, hi) →
      (lo ≤ v ∧ v ≤ hi →
        set_strobe_flash s mode (some v) = set_channel s 12 v) ∧
      (¬ (lo ≤ v ∧ v ≤ hi) →
        set_strobe_flash s mode (some v)
          = (s, some DmxError.valueOutOfRange))) ∧
    (∀ (s : DmxState) (laser : Int) (mode : String) (lo hi v : Int),
      node_highlighting_modes mode = some (lo, hi) →
      (lo ≤ v ∧ v ≤ hi →
        set_node_highlighting s laser mode (some v)
          = set_channel s (if laser = 1 then 13 else 30) v) ∧
      (¬ (lo ≤ v ∧ v ≤ hi) →
        set_node_highlighting s laser mode (some v)
          = (s, some DmxError.valueOutOfRange))) ∧
    (∀ (s : DmxState) (mode : String) (lo hi v : Int),
      horizontal_flip_modes mode = some (lo, hi) →
      (lo ≤ v ∧ v ≤ hi →
        set_horizontal_flip s mode (some v) = set_channel s 26 v) ∧
      (¬ (lo ≤ v ∧ v ≤ hi) →
        set_horizontal_flip s mode (some v)
          = (s, some DmxError.valueOutOfRange))) ∧
    (∀ (s : DmxState) (mode : String) (lo hi v : Int),
      vertical_flip_modes mode = some (lo, hi) →
      (lo ≤ v ∧ v ≤ hi →
        set_vertical_flip s mode (some v) = set_channel s 27 v) ∧
      (¬ (lo ≤ v ∧ v ≤ hi) →
        set_vertical_flip s mode (some v)
          = (s, some DmxError.valueOutOfRange))) ∧
    (∀ (s : DmxState) (mode : String) (lo hi v : Int),
      color_change_modes mode = some (lo, hi) →
      (lo ≤ v ∧ v ≤ hi →
        set_color_change s mode (some v) = set_channel s 29 v) ∧
      (¬ (lo ≤ v ∧ v ≤ hi) →
        set_color_change s mode (some v)
          = (s, some DmxError.valueOutOfRange))) ∧
    (∀ s : DmxState,
      set_pattern_zooming s 2 "zoom_in" (some 145) = set_channel s 22 145) ∧
    (∀ s : DmxState,
      set_pattern_zooming s 2 "zoom_in" (some 300)
        = (s, some DmxError.valueOutOfRange)) := by
  refine ⟨?_, ?_, ?_, ?_, ?_, ?_, ?_, ?_, ?_, ?_, ?_, ?_, ?_, ?_⟩
  · intro s laser mode lo hi v hlaser h
    unfold set_pattern_size
    rw [if_pos hlaser]
    exact setRangedMode_explicit _ _ _ _ _ _ _ h
  · intro s laser mode lo hi v h
    exact setRangedMode_explicit _ _ _ _ _ _ _ h
  · intro s laser mode lo hi v h
    exact setRangedMode_explicit _ _ _ _ _ _ _ h
  · intro s laser mode lo hi v h
    exact setRangedMode_explicit _ _ _ _ _ _ _ h
  · intro s laser mode lo hi v h
    exact setRangedMode_explicit _ _ _ _ _ _ _ h
  · intro s mode lo hi v h
    exact setRangedMode_explicit _ _ _ _ _ _ _ h
  · intro s mode lo hi v h
    exact setRangedMode_explicit _ _ _ _ _ _ _ h
  · intro s mode lo hi v h
    exact setRangedMode_explicit _ _ _ _ _ _ _ h
  · intro s laser mode lo hi v h
    exact setRangedMode_explicit _ _ _ _ _ _ _ h
  · intro s mode lo hi v h
    exact setRangedMode_explicit _ _ _ _ _ _ _ h
  · intro s mode lo hi v h
    exact setRangedMode_explicit _ _ _ _ _ _ _ h
  · intro s mode lo hi v h
    exact setRangedMode_explicit _ _ _ _ _ _ _ h
  · intro s
    exact (setRangedMode_explicit pattern_zooming_modes 22 s "zoom_in"
      128 159 145 rfl).1 (by norm_num)
  · intro s
    exact (setRangedMode_explicit pattern_zooming_modes 22 s "zoom_in"
      128 159 300 rfl).2 (by norm_num)

/-- Claim C6 witness: on a fresh connected controller, pattern zoom for
laser 2, mode "zoom_in" accepts value 145 (resolving to channel 22,
value 145) and rejects value 300 with the value out-of-range warning. -/
theorem range_modes_explicit_value_witness :
    (set_pattern_zooming freshController 2 "zoom_in" (some 145)
        = set_channel freshController 22 145) ∧
      (set_pattern_zooming freshController 2 "zoom_in" (some 300)
        = (freshController, some DmxError.valueOutOfRange)) :=
  ⟨((range_modes_explicit_value.2.1 freshController 2 "zoom_in"
      128 159 145 rfl).1 (by norm_num)),
   ((range_modes_explicit_value.2.1 freshController 2 "zoom_in"
      128 159 300 rfl).2 (by norm_num))⟩

lemma node_highlighting_modes_cases (mode : String) :
    node_highlighting_modes mode = none ∨
      node_highlighting_modes mode = some (0, 63) ∨
      node_highlighting_modes mode = some (64, 127) ∨
      node_highlighting_modes mode = some (128, 223) := by
  unfold node_highlighting_modes
  split
  · right; left; rfl
  · right; right; left; rfl
  · right; right; right; rfl
  · left; rfl

/-- Claim C8 theorem.  The node-highlighting mode "scanning_line" accepts
every explicit value in [128, 223] (resolving it to channel 13 for
laser 1, 30 for laser 2), while no node-highlighting mode accepts any
value in [224, 255]: every such call fails and leaves the state
unchanged. -/
theorem node_highlighting_scanning_line_range (s : DmxState) (laser : Int) :
    (∀ v : Int, 128 ≤ v → v ≤ 223 →
      set_node_highlighting s laser "scanning_line" (some v)
        = set_channel s (if laser = 1 then 13 else 30) v) ∧
    (∀ (mode : String) (v : Int), 224 ≤ v → v ≤ 255 →
      (set_node_highlighting s laser mode (some v)).1 = s ∧
        (set_node_highlighting s laser mode (some v)).2 ≠ none) := by
  constructor
  · intro v h1 h2
    exact (setRangedMode_explicit node_highlighting_modes _ s "scanning_line"
      128 223 v rfl).1 ⟨h1, h2⟩
  · intro mode v h1 h2
    rcases node_highlighting_modes_cases mode with hm | hm | hm | hm
    · rw [show set_node_highlighting s laser mode (some v) = _ from
        setRangedMode_unknown node_highlighting_modes _ s mode (some v) hm]
      exact ⟨rfl, by simp⟩
    · rw [show set_node_highlighting s laser mode (some v) = _ from
        (setRangedMode_explicit node_highlighting_modes _ s mode 0 63 v hm).2
          (by omega)]
      exact ⟨rfl, by simp⟩
    · rw [show set_node_highlighting s laser mode (some v) = _ from
        (setRangedMode_explicit node_highlighting_modes _ s mode 64 127 v hm).2
          (by omega)]
      exact ⟨rfl, by simp⟩
    · rw [show set_node_highlighting s laser mode (some v) = _ from
        (setRangedMode_explicit node_highlighting_modes _ s mode 128 223 v hm).2
          (by omega)]
      exact ⟨rfl, by simp⟩

lemma set_node_expansion_of_companion (s : DmxState) (laser ev c : Int)
    (hev : 0 ≤ ev ∧ ev ≤ 255)
    (hc : get_channel_value s (if laser = 1 then 15 else 32) = some c) :
    (set_node_expansion s laser ev none
      = if 128 ≤ c then (s, some DmxError.missingRequiredValue)
        else set_channel s (if laser = 1 then 14 else 31) ev) ∧
    (∀ d : Int, 0 ≤ d → d ≤ 255 →
      set_node_expansion s laser ev (some d)
        = if 128 ≤ c then set_channel s (if laser = 1 then 14 else 31) d
          else set_channel s (if laser = 1 then 14 else 31) ev) := by
  constructor
  · unfold set_node_expansion
    rw [if_neg (not_not_intro hev), hc]
  · intro d hd1 hd2
    unfold set_node_expansion
    rw [if_neg (not_not_intro hev), hc]
    dsimp only
    rw [if_neg (not_not_intro ⟨hd1, hd2⟩)]

/-- Claim C2 theorem.  Node expansion for laser 1 or 2 with an expansion
value in [0, 255] reads the companion gradual-drawing channel (15, or
32): when that channel holds a value of at least 128, omitting the delay
value fails with MissingRequiredValue leaving the state unchanged, and a
supplied delay value in [0, 255] is what gets written to the target
channel (14, or 31); when the companion value is below 128 the expansion
value itself is written. -/
theorem node_expansion_delay_gate (s : DmxState) (laser ev c : Int)
    (hlaser : laser = 1 ∨ laser = 2)
    (hconn : s.connected = true)
    (hn : s.numChannels = 32)
    (hlen : s.current_state.length = s.numChannels)
    (hev : 0 ≤ ev ∧ ev ≤ 255)
    (hc : get_channel_value s (if laser = 1 then 15 else 32) = some c) :
    (128 ≤ c →
      set_node_expansion s laser ev none
          = (s, some DmxError.missingRequiredValue) ∧
        ∀ d : Int, 0 ≤ d → d ≤ 255 →
          get_channel_value (set_node_expansion s laser ev (some d)).1
            (if laser = 1 then 14 else 31) = some d) ∧
    (c < 128 →
      get_channel_value (set_node_expansion s laser ev none).1
          (if laser = 1 then 14 else 31) = some ev ∧
        ∀ d : Int, 0 ≤ d → d ≤ 255 →
          get_channel_value (set_node_expansion s laser ev (some d)).1
            (if laser = 1 then 14 else 31) = some ev) := by
  obtain ⟨h1, h2⟩ := set_node_expansion_of_companion s laser ev c hev hc
  have hch : 1 ≤ (if laser = 1 then (14:Int) else 31) ∧
      (if laser = 1 then (14:Int) else 31) ≤ (s.numChannels : Int) := by
    rcases hlaser with h | h <;> subst h <;> rw [hn] <;> norm_num
  constructor
  · intro h128
    constructor
    · rw [h1, if_pos h128]
    · intro d hd1 hd2
      rw [h2 d hd1 hd2, if_pos h128]
      exact set_channel_then_get s _ d hconn hlen hch ⟨hd1, hd2⟩
  · intro hlt
    constructor
    · rw [h1, if_neg (by omega)]
      exact set_channel_then_get s _ ev hconn hlen hch hev
    · intro d hd1 hd2
      rw [h2 d hd1 hd2, if_neg (by omega)]
      exact set_channel_then_get s _ ev hconn hlen hch hev

/-- Claim C2 witness: with channel 15 holding 200, node expansion for
laser 1 with expansion value 50 and no delay fails with
MissingRequiredValue; with delay 10 it writes 10 (not 50) to
channel 14. -/
theorem node_expansion_delay_gate_witness :
    set_node_expansion drawingHighController 1 50 none
        = (drawingHighController, some DmxError.missingRequiredValue) ∧
      get_channel_value (set_node_expansion drawingHighController 1 50 (some 10)).1 14
        = some 10 := by
  have h := node_expansion_delay_gate drawingHighController 1 50 200
    (Or.inl rfl) rfl rfl (by decide) (by decide) (by decide)
  exact ⟨(h.1 (by decide)).1, (h.1 (by decide)).2 10 (by decide) (by decide)⟩

lemma set_gradual_drawing_manual (s : DmxState) (laser mval : Int)
    (mode : String)
    (hmode : mode = "forward_manual" ∨ mode = "reverse_manual")
    (hm : 0 ≤ mval ∧ mval ≤ (if mode = "forward_manual" then 127 else 63)) :
    set_gradual_drawing s laser mode (some mval)
      = if laser = 1 ∧ get_channel_value s 14 = some 0 then
          (s, some DmxError.preconditionNotMet)
        else if laser = 2 ∧ get_channel_value s 31 = some 0 then
          (s, some DmxError.preconditionNotMet)
        else set_channel s (if laser = 1 then 15 else 32) mval := by
  rcases hmode with h | h <;> subst h
  · unfold set_gradual_drawing
    rw [show gradual_drawing_modes "forward_manual" = some (0, 63) from rfl]
    dsimp only
    rw [if_pos (Or.inl rfl), if_neg (not_not_intro hm)]
  · unfold set_gradual_drawing
    rw [show gradual_drawing_modes "reverse_manual" = some (64, 127) from rfl]
    dsimp only
    rw [if_pos (Or.inr rfl), if_neg (not_not_intro hm)]

/-- Claim C3 theorem.  A manual gradual-drawing sub-mode (forward ceiling
127, reverse ceiling 63) for laser 1 or 2 with an in-range manual value
fails with PreconditionNotMet, leaving the state unchanged, when the
companion node-expansion channel (14, or 31) holds 0; when that channel
is non-zero the manual value is written to channel 15 (or 32). -/
theorem gradual_drawing_manual_precondition (s : DmxState) (laser mval : Int)
    (mode : String)
    (hlaser : laser = 1 ∨ laser = 2)
    (hconn : s.connected = true)
    (hn : s.numChannels = 32)
    (hlen : s.current_state.length = s.numChannels)
    (hmode : mode = "forward_manual" ∨ mode = "reverse_manual")
    (hm : 0 ≤ mval ∧ mval ≤ (if mode = "forward_manual" then 127 else 63)) :
    (get_channel_value s (if laser = 1 then 14 else 31) = some 0 →
      set_gradual_drawing s laser mode (some mval)
        = (s, some DmxError.preconditionNotMet)) ∧
    (∀ c : Int, get_channel_value s (if laser = 1 then 14 else 31) = some c →
      c ≠ 0 →
      get_channel_value (set_gradual_drawing s laser mode (some mval)).1
        (if laser = 1 then 15 else 32) = some mval) := by
  have heq := set_gradual_drawing_manual s laser mval mode hmode hm
  have hmv : 0 ≤ mval ∧ mval ≤ 255 := by
    rcases hmode with h | h <;> subst h <;> simp at hm <;> omega
  rcases hlaser with h | h <;> subst h
  · constructor
    · intro h0
      simp only [show (if (1:Int) = 1 then (14:Int) else 31) = 14 from rfl] at h0
      rw [heq, if_pos ⟨rfl, h0⟩]
    · intro c hcv hc0
      simp only [show (if (1:Int) = 1 then (14:Int) else 31) = 14 from rfl] at hcv
      have hne1 : ¬ ((1:Int) = 1 ∧ get_channel_value s 14 = some 0) := by
        rintro ⟨_, hg⟩
        exact hc0 (Option.some.inj (hcv.symm.trans hg))
      have hne2 : ¬ ((1:Int) = 2 ∧ get_channel_value s 31 = some 0) := by
        rintro ⟨h2, _⟩
        norm_num at h2
      rw [heq, if_neg hne1, if_neg hne2]
      exact set_channel_then_get s _ mval hconn hlen (by rw [hn]; norm_num) hmv
  · constructor
    · intro h0
      simp only [show (if (2:Int) = 1 then (14:Int) else 31) = 31 from rfl] at h0
      have hne1 : ¬ ((2:Int) = 1 ∧ get_channel_value s 14 = some 0) := by
        rintro ⟨h2, _⟩
        norm_num at h2
      rw [heq, if_neg hne1, if_pos ⟨rfl, h0⟩]
    · intro c hcv hc0
      simp only [show (if (2:Int) = 1 then (14:Int) else 31) = 31 from rfl] at hcv
      have hne1 : ¬ ((2:Int) = 1 ∧ get_channel_value s 14 = some 0) := by
        rintro ⟨h2, _⟩
        norm_num at h2
      have hne2 : ¬ ((2:Int) = 2 ∧ get_channel_value s 31 = some 0) := by
        rintro ⟨_, hg⟩
        exact hc0 (Option.some.inj (hcv.symm.trans hg))
      rw [heq, if_neg hne1, if_neg hne2]
      exact set_channel_then_get s _ mval hconn hlen (by rw [hn]; norm_num) hmv

/-- Claim C3 witness: on a fresh controller (channel 14 is 0),
"forward_manual" for laser 1 with manual value 20 fails with
PreconditionNotMet; with channel 14 holding 50 the same call writes 20
to channel 15. -/
theorem gradual_drawing_manual_precondition_witness :
    set_gradual_drawing freshController 1 "forward_manual" (some 20)
        = (freshController, some DmxError.preconditionNotMet) ∧
      get_channel_value
        (set_gradual_drawing expansionSetController 1 "forward_manual" (some 20)).1
        15 = some 20 :=
  ⟨(gradual_drawing_manual_precondition freshController 1 20 "forward_manual"
      (Or.inl rfl) rfl rfl (by decide) (Or.inl rfl) (by decide)).1 (by decide),
   (gradual_drawing_manual_precondition expansionSetController 1 20
      "forward_manual" (Or.inl rfl) rfl rfl (by decide) (Or.inl rfl)
      (by decide)).2 50 (by decide) (by decide)⟩

/-- Claim C9 theorem.  Every operation of the controller preserves the
channel-array invariant: num_channels is never changed by any call, and
when the array has length num_channels with every element in [0, 255]
beforehand, so it does afterwards (the array is only written through
validated channel writes and never resized). -/
theorem controller_ops_preserve_invariant :
    (∀ upds, preservesDmxInvariant (fun s => send_dmx_packet s upds)) ∧
    (∀ c v : Int, preservesDmxInvariant (fun s => set_channel s c v)) ∧
    (∀ mode, preservesDmxInvariant (fun s => set_lamp_mode s mode)) ∧
    (∀ (l : Int) mode v,
      preservesDmxInvariant (fun s => set_pattern_size s l mode v)) ∧
    (∀ g : Int, preservesDmxInvariant (fun s => select_gallery s g)) ∧
    (∀ l p : Int, preservesDmxInvariant (fun s => select_pattern s l p)) ∧
    (∀ (l : Int) mode v,
      preservesDmxInvariant (fun s => set_pattern_zooming s l mode v)) ∧
    (∀ (l : Int) mode v,
      preservesDmxInvariant (fun s => set_pattern_rotation s l mode v)) ∧
    (∀ (l : Int) mode v,
      preservesDmxInvariant (fun s => set_horizontal_movement s l mode v)) ∧
    (∀ (l : Int) mode v,
      preservesDmxInvariant (fun s => set_vertical_movement s l mode v)) ∧
    (∀ mode v,
      preservesDmxInvariant (fun s => set_horizontal_zooming s mode v)) ∧
    (∀ mode v,
      preservesDmxInvariant (fun s => set_vertical_zooming s mode v)) ∧
    (∀ (l : Int) mode v,
      preservesDmxInvariant (fun s => set_forced_color s l mode v)) ∧
    (∀ mode v, preservesDmxInvariant (fun s => set_strobe_flash s mode v)) ∧
    (∀ (l : Int) mode v,
      preservesDmxInvariant (fun s => set_node_highlighting s l mode v)) ∧
    (∀ (l ev : Int) d,
      preservesDmxInvariant (fun s => set_node_expansion s l ev d)) ∧
    (∀ (l : Int) mode v,
      preservesDmxInvariant (fun s => set_gradual_drawing s l mode v)) ∧
    (∀ l d : Int,
      preservesDmxInvariant (fun s => set_distortion_degree s l d)) ∧
    (∀ p : Int,
      preservesDmxInvariant (fun s => set_second_lamp_pattern s p)) ∧
    (∀ mode,
      preservesDmxInvariant (fun s => set_pattern_library_selection s mode)) ∧
    (∀ mode v, preservesDmxInvariant (fun s => set_horizontal_flip s mode v)) ∧
    (∀ mode v, preservesDmxInvariant (fun s => set_vertical_flip s mode v)) ∧
    (∀ mode v, preservesDmxInvariant (fun s => set_color_change s mode v)) ∧
    preservesDmxInvariant blackout ∧
    preservesDmxInvariant reset_all_channels := by
  refine ⟨?_, ?_, ?_, ?_, ?_, ?_, ?_, ?_, ?_, ?_, ?_, ?_, ?_, ?_, ?_, ?_,
    ?_, ?_, ?_, ?_, ?_, ?_, ?_, ?_, ?_⟩
  · intro upds
    exact routes_preserves (fun s => Or.inr ⟨upds, rfl⟩)
  · intro c v
    exact routes_preserves (set_channel_routes c v)
  · intro mode
    exact routes_preserves (set_lamp_mode_routes mode)
  · intro l mode v
    exact routes_preserves (set_pattern_size_routes l mode v)
  · intro g
    exact routes_preserves (select_gallery_routes g)
  · intro l p
    exact routes_preserves (select_pattern_routes l p)
  · intro l mode v
    exact routes_preserves (setRangedMode_routes _ _ _ _)
  · intro l mode v
    exact routes_preserves (setRangedMode_routes _ _ _ _)
  · intro l mode v
    exact routes_preserves (setRangedMode_routes _ _ _ _)
  · intro l mode v
    exact routes_preserves (setRangedMode_routes _ _ _ _)
  · intro mode v
    exact routes_preserves (setRangedMode_routes _ _ _ _)
  · intro mode v
    exact routes_preserves (setRangedMode_routes _ _ _ _)
  · intro l mode v
    exact routes_preserves (set_forced_color_routes l mode v)
  · intro mode v
    exact routes_preserves (setRangedMode_routes _ _ _ _)
  · intro l mode v
    exact routes_preserves (setRangedMode_routes _ _ _ _)
  · intro l ev d
    exact routes_preserves (set_node_expansion_routes l ev d)
  · intro l mode v
    exact routes_preserves (set_gradual_drawing_routes l mode v)
  · intro l d
    exact routes_preserves (set_distortion_degree_routes l d)
  · intro p
    exact routes_preserves (set_second_lamp_pattern_routes p)
  · intro mode
    exact routes_preserves (set_pattern_library_selection_routes mode)
  · intro mode v
    exact routes_preserves (setRangedMode_routes _ _ _ _)
  · intro mode v
    exact routes_preserves (setRangedMode_routes _ _ _ _)
  · intro mode v
    exact routes_preserves (setRangedMode_routes _ _ _ _)
  · exact routes_preserves (set_lamp_mode_routes "off")
  · exact routes_preserves reset_all_channels_routes

/-- Claim C9 witness: a validated write keeps the invariant on a fresh
connected controller, and num_channels is untouched. -/
theorem controller_ops_preserve_invariant_witness :
    dmxInvariant (set_channel freshController 5 99).1 ∧
      (set_channel freshController 5 99).1.numChannels
        = freshController.numChannels :=
  ⟨((controller_ops_preserve_invariant.2.1 5 99) freshController).2 (by decide),
   ((controller_ops_preserve_invariant.2.1 5 99) freshController).1⟩

/-- Claim C10 theorem.  With no connected transport, set_channel and
every mode-setting operation that routes through packet sending return
the controller state (hence the channel array) completely unchanged, for
all arguments. -/
theorem disconnected_ops_leave_state_unchanged :
    (∀ upds, untouchedWhenDisconnected (fun s => send_dmx_packet s upds)) ∧
    (∀ c v : Int, untouchedWhenDisconnected (fun s => set_channel s c v)) ∧
    (∀ mode, untouchedWhenDisconnected (fun s => set_lamp_mode s mode)) ∧
    (∀ (l : Int) mode v,
      untouchedWhenDisconnected (fun s => set_pattern_size s l mode v)) ∧
    (∀ g : Int, untouchedWhenDisconnected (fun s => select_gallery s g)) ∧
    (∀ l p : Int, untouchedWhenDisconnected (fun s => select_pattern s l p)) ∧
    (∀ (l : Int) mode v,
      untouchedWhenDisconnected (fun s => set_pattern_zooming s l mode v)) ∧
    (∀ (l : Int) mode v,
      untouchedWhenDisconnected (fun s => set_pattern_rotation s l mode v)) ∧
    (∀ (l : Int) mode v,
      untouchedWhenDisconnected (fun s => set_horizontal_movement s l mode v)) ∧
    (∀ (l : Int) mode v,
      untouchedWhenDisconnected (fun s => set_vertical_movement s l mode v)) ∧
    (∀ mode v,
      untouchedWhenDisconnected (fun s => set_horizontal_zooming s mode v)) ∧
    (∀ mode v,
      untouchedWhenDisconnected (fun s => set_vertical_zooming s mode v)) ∧
    (∀ (l : Int) mode v,
      untouchedWhenDisconnected (fun s => set_forced_color s l mode v)) ∧
    (∀ mode v, untouchedWhenDisconnected (fun s => set_strobe_flash s mode v)) ∧
    (∀ (l : Int) mode v,
      untouchedWhenDisconnected (fun s => set_node_highlighting s l mode v)) ∧
    (∀ (l ev : Int) d,
      untouchedWhenDisconnected (fun s => set_node_expansion s l ev d)) ∧
    (∀ (l : Int) mode v,
      untouchedWhenDisconnected (fun s => set_gradual_drawing s l mode v)) ∧
    (∀ l d : Int,
      untouchedWhenDisconnected (fun s => set_distortion_degree s l d)) ∧
    (∀ p : Int,
      untouchedWhenDisconnected (fun s => set_second_lamp_pattern s p)) ∧
    (∀ mode,
      untouchedWhenDisconnected (fun s => set_pattern_library_selection s mode)) ∧
    (∀ mode v, untouchedWhenDisconnected (fun s => set_horizontal_flip s mode v)) ∧
    (∀ mode v, untouchedWhenDisconnected (fun s => set_vertical_flip s mode v)) ∧
    (∀ mode v, untouchedWhenDisconnected (fun s => set_color_change s mode v)) ∧
    untouchedWhenDisconnected blackout ∧
    untouchedWhenDisconnected reset_all_channels := by
  refine ⟨?_, ?_, ?_, ?_, ?_, ?_, ?_, ?_, ?_, ?_, ?_, ?_, ?_, ?_, ?_, ?_,
    ?_, ?_, ?_, ?_, ?_, ?_, ?_, ?_, ?_⟩
  · intro upds
    exact routes_untouched (fun s => Or.inr ⟨upds, rfl⟩)
  · intro c v
    exact routes_untouched (set_channel_routes c v)
  · intro mode
    exact routes_untouched (set_lamp_mode_routes mode)
  · intro l mode v
    exact routes_untouched (set_pattern_size_routes l mode v)
  · intro g
    exact routes_untouched (select_gallery_routes g)
  · intro l p
    exact routes_untouched (select_pattern_routes l p)
  · intro l mode v
    exact routes_untouched (setRangedMode_routes _ _ _ _)
  · intro l mode v
    exact routes_untouched (setRangedMode_routes _ _ _ _)
  · intro l mode v
    exact routes_untouched (setRangedMode_routes _ _ _ _)
  · intro l mode v
    exact routes_untouched (setRangedMode_routes _ _ _ _)
  · intro mode v
    exact routes_untouched (setRangedMode_routes _ _ _ _)
  · intro mode v
    exact routes_untouched (setRangedMode_routes _ _ _ _)
  · intro l mode v
    exact routes_untouched (set_forced_color_routes l mode v)
  · intro mode v
    exact routes_untouched (setRangedMode_routes _ _ _ _)
  · intro l mode v
    exact routes_untouched (setRangedMode_routes _ _ _ _)
  · intro l ev d
    exact routes_untouched (set_node_expansion_routes l ev d)
  · intro l mode v
    exact routes_untouched (set_gradual_drawing_routes l mode v)
  · intro l d
    exact routes_untouched (set_distortion_degree_routes l d)
  · intro p
    exact routes_untouched (set_second_lamp_pattern_routes p)
  · intro mode
    exact routes_untouched (set_pattern_library_selection_routes mode)
  · intro mode v
    exact routes_untouched (setRangedMode_routes _ _ _ _)
  · intro mode v
    exact routes_untouched (setRangedMode_routes _ _ _ _)
  · intro mode v
    exact routes_untouched (setRangedMode_routes _ _ _ _)
  · exact routes_untouched (set_lamp_mode_routes "off")
  · exact routes_untouched reset_all_channels_routes

/-- Claim C10 witness: on a disconnected controller, a set_channel call
that would otherwise succeed changes nothing, so the set-then-get
round-trip fails there (reading back 0, not 200). -/
theorem disconnected_ops_leave_state_unchanged_witness :
    (set_channel offlineController 7 200).1 = offlineController ∧
      get_channel_value (set_channel offlineController 7 200).1 7 = some 0 :=
  ⟨(disconnected_ops_leave_state_unchanged.2.1 7 200) offlineController rfl,
   by rw [(disconnected_ops_leave_state_unchanged.2.1 7 200) offlineController rfl]
      decide⟩

/-- Claim C8 witness: on a fresh connected controller, "scanning_line"
accepts 200 (beyond the protocol reference's 159 ceiling) and every
node-highlighting mode rejects 240. -/
theorem node_highlighting_scanning_line_range_witness :
    set_node_highlighting freshController 1 "scanning_line" (some 200)
        = set_channel freshController 13 200 ∧
      (set_node_highlighting freshController 1 "scanning_line" (some 240)).2
        ≠ none :=
  ⟨(node_highlighting_scanning_line_range freshController 1).1 200
      (by decide) (by decide),
   ((node_highlighting_scanning_line_range freshController 1).2
      "scanning_line" 240 (by decide) (by decide)).2⟩
